import Mathlib

/-!
# Verification of the Stark Research Paper Analyzer orchestration layer

Shallow embedding of the job orchestration and resilience core of the
Stark-System repository (`backend/main.py`, `backend/summarizer.py`), together
with theorems settling the frozen claims about it.

The excluded collaborators (per spec §1: the PDF parser `pdfplumber`-based
`extract_text_by_pages`, the section segmenter `detect_sections`, the SHA-256
digest, the wall clock, and the Gemini summarization service) are modelled as
oracle functions collected in an `Env` record; all repository-owned logic
(caching, job registry, job runner, fallback synthesis, chunking, retry
policy) is translated directly from the Python source.
-/

namespace Stark

/-- Raw file bytes (`bytes` in Python). -/
abbrev Bytes := List Nat

/-- One page record produced by `pdf_extractor.extract_text_by_pages`:
`{"page_number": i+1, "text": ..., "tables": ...}`.  The `tables` field is
never read by the orchestration core, so it is omitted. -/
structure Page where
  page_number : Nat
  text : String
deriving Repr, DecidableEq

/-- One section produced by `pdf_extractor.detect_sections`:
`{"name": ..., "content": ..., "page_start": ...}`.  `page_start` is an
`Option` because the core reads it with `section.get("page_start", 0)`. -/
structure Section where
  name : String
  content : String
  page_start : Option Nat
deriving Repr, DecidableEq

/-- A chunk produced by `summarizer.chunk_by_sections`. -/
structure Chunk where
  name : String
  content : String
  page_start : Nat
deriving Repr, DecidableEq

/-- The fields `summarize_chunk` extracts from a successful Gemini JSON
response (`result.get("summary", "")` etc., defaults already applied). -/
structure ChunkResp where
  summary : String
  key_points : List String
  key_terms : List String
deriving Repr, DecidableEq

/-- The global-analysis JSON object (schema of `generate_global_summary`'s
response, also produced locally by the fallback and placeholder builders). -/
structure GlobalAnalysis where
  inferred_title : String
  global_summary : String
  problem_statement : String
  methodology : String
  key_contributions : List String
  limitations : List String
  future_work : List String
  all_key_terms : List String
deriving Repr, DecidableEq

/-- One per-section summary entry (built by `summarize_chunk`, by the
degraded-entry branch of `process_paper`, or by `_build_fallback_analysis`). -/
structure SectionSummary where
  section_name : String
  page_start : Nat
  summary : String
  key_points : List String
  key_terms : List String
deriving Repr, DecidableEq

/-- The `stats` object.  `process_paper` emits only the two counters;
`_build_fallback_analysis` additionally sets `"mode": "fallback_quota_limited"`,
hence `mode : Option String`. -/
structure Stats where
  total_sections : Nat
  total_chunks_processed : Nat
  mode : Option String
deriving Repr, DecidableEq

/-- The `analysis` object `{global, sections, stats}`. -/
structure Analysis where
  global : GlobalAnalysis
  sections : List SectionSummary
  stats : Stats
deriving Repr, DecidableEq

/-- A full result payload
`{filename, total_pages, total_tokens, analysis, cached}`. -/
structure Payload where
  filename : String
  total_pages : Nat
  total_tokens : Nat
  analysis : Analysis
  cached : Bool
deriving Repr, DecidableEq

/-- Job lifecycle states.  `partial_` models the Python status string
`"partial"` (the trailing underscore avoids the Lean keyword). -/
inductive JobStatus where
  | queued
  | running
  | completed
  | partial_
  | failed
deriving Repr, DecidableEq

/-- A job record as stored in the `JOBS` registry (`main.py`, lines 261-271). -/
structure Job where
  job_id : String
  filename : String
  status : JobStatus
  created_at : String
  started_at : Option String
  completed_at : Option String
  error : Option String
  result : Option Payload
deriving Repr, DecidableEq

/-! ## Python dict operations

`JOBS` and `ANALYSIS_CACHE` are Python dicts; we model them as association
lists with first-match lookup and in-place overwrite on assignment, which is
exactly Python's `d[k] = v` / `d.get(k)` semantics. -/

/-- Python `d.get(k)`: first binding for `k`, if any. -/
def dictGet {α : Type} (m : List (String × α)) (k : String) : Option α :=
  match m with
  | [] => none
  | (k', v) :: rest => if k' = k then some v else dictGet rest k

/-- Python `d[k] = v`: overwrite the existing binding in place, or append. -/
def dictSet {α : Type} (m : List (String × α)) (k : String) (v : α) :
    List (String × α) :=
  match m with
  | [] => [(k, v)]
  | (k', v') :: rest =>
      if k' = k then (k, v) :: rest else (k', v') :: dictSet rest k v

/-! ## Python string primitives

The core manipulates Python `str` values with `split("\n\n")`, `strip()`,
`lower()` and `endswith`.  We implement these over the character list of a
Lean `String` with plain structural recursion (so they both execute and admit
induction proofs).  Inputs are ASCII; the ASCII whitespace set of `strip()`
is modelled exactly. -/

/-- Python `str.strip()` whitespace (ASCII part): space, `\t`, `\n`, `\r`,
`\x0b`, `\x0c`. -/
def pyIsSpace (c : Char) : Bool :=
  c == ' ' || c == '\t' || c == '\n' || c == '\r' || c == '\x0b' || c == '\x0c'

/-- Implementation of `strip()` on a character list. -/
def pyStripChars (l : List Char) : List Char :=
  ((l.dropWhile pyIsSpace).reverse.dropWhile pyIsSpace).reverse

/-- Python `s.strip()`. -/
def pyStrip (s : String) : String := String.mk (pyStripChars s.data)

/-- Python `s.split("\n\n")` on a character list: scan left to right, cutting
at each (non-overlapping) occurrence of two consecutive newlines. -/
def pySplitChars : List Char → List (List Char)
  | [] => [[]]
  | [c] => [[c]]
  | c1 :: c2 :: rest =>
      if c1 = '\n' ∧ c2 = '\n' then
        [] :: pySplitChars rest
      else
        match pySplitChars (c2 :: rest) with
        | t :: ts => (c1 :: t) :: ts
        | [] => [[c1]]

/-- Python `s.split("\n\n")`. -/
def pySplitNN (s : String) : List String := (pySplitChars s.data).map String.mk

/-- Python `s.lower()` (ASCII). -/
def pyLower (s : String) : String := String.mk (s.data.map Char.toLower)

/-- Python `s.endswith(suffix)`. -/
def pyEndsWith (s suffix : String) : Bool := suffix.data.isSuffixOf s.data

/-! ## summarizer.py: constants, token counting, chunking -/

/-- Constant `MAX_CHUNK_CHARS = 12000` (summarizer.py line 15). -/
def MAX_CHUNK_CHARS : Nat := 12000

/-- Function `count_tokens`: `len(text) // 4`. -/
def count_tokens (text : String) : Nat := text.length / 4

/-- The paragraph loop inside `chunk_by_sections` (summarizer.py lines 67-78).
State: remaining paragraphs, `current_chunk`, `chunk_index`.  Returns the
chunks flushed inside the loop plus the final `current_chunk`/`chunk_index`. -/
def chunkLoop (name : String) (ps : Nat) (maxChars : Nat) :
    List String → String → Nat → List Chunk × String × Nat
  | [], cur, idx => ([], cur, idx)
  | para :: rest, cur, idx =>
      if cur.length + para.length + 2 > maxChars then
        if pyStrip cur ≠ "" then
          let r := chunkLoop name ps maxChars rest para (idx + 1)
          (⟨name ++ " (Part " ++ toString idx ++ ")", pyStrip cur, ps⟩ :: r.1,
            r.2.1, r.2.2)
        else
          chunkLoop name ps maxChars rest para idx
      else
        chunkLoop name ps maxChars rest (cur ++ "\n\n" ++ para) idx

/-- Chunking of one section (the body of the `for section in sections` loop
in `chunk_by_sections`, summarizer.py lines 51-85). -/
def chunkSection (maxChars : Nat) (s : Section) : List Chunk :=
  if s.content.length ≤ maxChars then
    [⟨s.name, s.content, s.page_start.getD 0⟩]
  else
    let paragraphs := pySplitNN s.content
    let r := chunkLoop s.name (s.page_start.getD 0) maxChars paragraphs "" 1
    if pyStrip r.2.1 ≠ "" then
      r.1 ++ [⟨if r.2.2 > 1 then s.name ++ " (Part " ++ toString r.2.2 ++ ")"
               else s.name,
               pyStrip r.2.1, s.page_start.getD 0⟩]
    else
      r.1

/-- Function `chunk_by_sections(sections, max_chars)` (summarizer.py lines 44-87). -/
def chunk_by_sections (sections : List Section) (maxChars : Nat) : List Chunk :=
  (sections.map (chunkSection maxChars)).flatten

/-! ## summarizer.py: the retrying Gemini wrapper `_call_gemini` -/

/-- Outcome of one underlying Gemini API attempt (one loop iteration's
`client.models.generate_content` + `json.loads`): a parsed response, or a
raised exception with message `msg`. -/
inductive AttemptResult where
  | ok (r : ChunkResp)
  | err (msg : String)
deriving Repr, DecidableEq

/-- Implementation of Python's `pat in s` over character lists. -/
def listHasSub (pat : List Char) : List Char → Bool
  | [] => pat.isEmpty
  | c :: rest => pat.isPrefixOf (c :: rest) || listHasSub pat rest

/-- Membership test `pat in s` of Python, on strings. -/
def strContains (s pat : String) : Bool := listHasSub pat.data s.data

/-- The quota classification in `_call_gemini` (summarizer.py line 108):
`"RESOURCE_EXHAUSTED" in str(e) or "quota" in str(e).lower()`. -/
def isQuotaMsg (msg : String) : Bool :=
  strContains msg "RESOURCE_EXHAUSTED" || strContains (pyLower msg) "quota"

/-- Constant `max_retries = 3` (summarizer.py line 93). -/
def max_retries : Nat := 3

/-- Constant `base_delay = 40` seconds (summarizer.py line 94). -/
def base_delay : Nat := 40

/-- The message of the `RateLimitExceeded` raised on exhaustion
(summarizer.py lines 115-118). -/
def rateLimitExhaustMsg : String :=
  "Rate limit exceeded after " ++ toString max_retries ++
    " attempts. Please wait a few minutes before trying again."

/-- Result of one `_call_gemini` invocation: a parsed response, a raised
`RateLimitExceeded` (quota), or a re-raised non-quota exception. -/
inductive CallResult where
  | ok (r : ChunkResp)
  | quota (msg : String)
  | err (msg : String)
deriving Repr, DecidableEq

/-- Trace of one `_call_gemini` invocation: its result, the number of
attempts performed, and the `time.sleep` durations in order. -/
structure GemCall where
  result : CallResult
  attemptsUsed : Nat
  sleeps : List Nat
deriving Repr, DecidableEq

/-- The `for attempt in range(max_retries)` loop of `_call_gemini`
(summarizer.py lines 96-120), unrolled from attempt index `k` with
`fuel = max_retries - k` remaining iterations.  The fuel-exhausted case is
unreachable (the final iteration always returns or raises); it models
Python's implicit `return None` as an error. -/
def callGeminiLoop (a : Nat → AttemptResult) (k : Nat) : Nat → GemCall
  | 0 => ⟨.err "loop exhausted", k, []⟩
  | fuel + 1 =>
      match a k with
      | .ok r => ⟨.ok r, k + 1, []⟩
      | .err m =>
          if isQuotaMsg m then
            if k < max_retries - 1 then
              let rest := callGeminiLoop a (k + 1) fuel
              ⟨rest.result, rest.attemptsUsed, base_delay * 2 ^ k :: rest.sleeps⟩
            else
              ⟨.quota rateLimitExhaustMsg, k + 1, []⟩
          else
            ⟨.err m, k + 1, []⟩

/-- Function `_call_gemini`, abstracted over the per-attempt oracle `a`. -/
def call_gemini (a : Nat → AttemptResult) : GemCall :=
  callGeminiLoop a 0 max_retries

/-! ## The environment of external collaborators

`process_paper` makes a sequence of `_call_gemini` invocations (one per chunk,
then one for the global synthesis).  We index them by a global call counter
and let the environment decide each invocation's outcome; `GlobalOutcome`
is the same three-way outcome with the global-analysis response schema. -/

/-- Outcome of the `n`-th `_call_gemini` invocation when it is a per-chunk
summarization call. -/
inductive ChunkOutcome where
  | ok (r : ChunkResp)
  | quota (msg : String)
  | err (msg : String)
deriving Repr, DecidableEq

/-- Outcome of the `n`-th `_call_gemini` invocation when it is the global
synthesis call. -/
inductive GlobalOutcome where
  | ok (g : GlobalAnalysis)
  | quota (msg : String)
  | err (msg : String)
deriving Repr, DecidableEq

/-- The external collaborators (spec §1): PDF parser, segmenter, content
digest, wall clock, and the summarization service (as outcomes of the wrapped
`_call_gemini` invocations, indexed by a global invocation counter). -/
structure Env where
  extract_text_by_pages : Bytes → Except String (List Page)
  detect_sections : List Page → List Section
  sha256_hexdigest : Bytes → String
  now_iso : Nat → String
  chunkSvc : Nat → ChunkOutcome
  globalSvc : Nat → GlobalOutcome

/-! ## summarizer.py: process_paper -/

/-- Function `summarize_chunk` on a successful Gemini response (summarizer.py
lines 148-154). -/
def summarize_chunk (c : Chunk) (r : ChunkResp) : SectionSummary :=
  ⟨c.name, c.page_start, r.summary, r.key_points, r.key_terms⟩

/-- The degraded per-chunk entry recorded on a non-quota failure
(summarizer.py lines 213-219). -/
def degraded_summary (c : Chunk) (msg : String) : SectionSummary :=
  ⟨c.name, c.page_start, "Error summarizing: " ++ msg, [], []⟩

/-- The placeholder global analysis substituted on a non-quota synthesis
failure (summarizer.py lines 227-236). -/
def placeholder_global (msg : String) : GlobalAnalysis :=
  ⟨"Unknown", "Error generating global summary: " ++ msg, "", "", [], [], [], []⟩

/-- The `for chunk in chunks` loop of `process_paper` (summarizer.py
lines 205-219), threading the service-invocation counter.  A quota failure
propagates (`RateLimitExceeded` is re-raised); any other failure is absorbed
into a degraded entry. -/
def summarize_chunks (env : Env) :
    Nat → List Chunk → Except (String × Nat) (List SectionSummary × Nat)
  | n, [] => .ok ([], n)
  | n, c :: cs =>
      match env.chunkSvc n with
      | .ok r =>
          match summarize_chunks env (n + 1) cs with
          | .ok (ss, n') => .ok (summarize_chunk c r :: ss, n')
          | .error e => .error e
      | .quota m => .error (m, n + 1)
      | .err m =>
          match summarize_chunks env (n + 1) cs with
          | .ok (ss, n') => .ok (degraded_summary c m :: ss, n')
          | .error e => .error e

/-- Function `process_paper(sections)` (summarizer.py lines 196-245), threading the
service-invocation counter `n`.  The error case is a propagated
`RateLimitExceeded` message (the only exception `process_paper` can raise). -/
def process_paper (env : Env) (n : Nat) (sections : List Section) :
    Except (String × Nat) (Analysis × Nat) :=
  let chunks := chunk_by_sections sections MAX_CHUNK_CHARS
  match summarize_chunks env n chunks with
  | .error e => .error e
  | .ok (ss, n') =>
      match env.globalSvc n' with
      | .ok g =>
          .ok (⟨g, ss, ⟨sections.length, chunks.length, none⟩⟩, n' + 1)
      | .quota m => .error (m, n' + 1)
      | .err m =>
          .ok (⟨placeholder_global m, ss, ⟨sections.length, chunks.length, none⟩⟩,
            n' + 1)

/-! ## main.py: shared state, fallback builder, job runner, endpoints -/

/-- The process-wide mutable state: the `JOBS` registry, the
`ANALYSIS_CACHE`, plus two pieces of verification instrumentation: `calls`
(number of summarization-service invocations so far — the injected call
counter of spec §8) and `tick` (wall-clock reads so far, feeding `now_iso`). -/
structure St where
  jobs : List (String × Job)
  cache : List (String × Payload)
  calls : Nat
  tick : Nat
deriving Repr, DecidableEq

/-- Function `_build_fallback_analysis(sections, reason)` (main.py lines 32-64). -/
def build_fallback_analysis (sections : List Section) (reason : String) :
    Analysis :=
  { global :=
      { inferred_title := "Analysis Pending"
        global_summary := reason
        problem_statement := ""
        methodology := ""
        key_contributions := []
        limitations := ["Gemini quota limit hit during this run."]
        future_work :=
          ["Retry full analysis once quota resets.",
           "Use async job endpoint for automatic background retries."]
        all_key_terms := [] }
    sections := sections.map (fun s =>
      { section_name := s.name
        page_start := s.page_start.getD 0
        summary := "Detailed LLM summary is pending due to temporary API quota limits."
        key_points := []
        key_terms := [] })
    stats :=
      { total_sections := sections.length
        total_chunks_processed := 0
        mode := some "fallback_quota_limited" } }

/-- Function `_set_job(job_id, **updates)` (main.py lines 67-72): update the record in
place if it exists, otherwise do nothing.  Also returns the status value
written (every call site sets `status`), as lifecycle instrumentation. -/
def set_job (st : St) (job_id : String) (f : Job → Job) : St × List JobStatus :=
  match dictGet st.jobs job_id with
  | none => (st, [])
  | some j =>
      ({st with jobs := dictSet st.jobs job_id (f j)}, [(f j).status])

/-- Concatenation `"\n\n".join(p["text"] for p in pages if p["text"])`. -/
def join_pages (pages : List Page) : String :=
  String.intercalate "\n\n" ((pages.filter (fun p => p.text != "")).map Page.text)

/-- The `ValueError` message for empty extracted text (main.py line 83; the
same string is the HTTP 422 detail on the synchronous path, line 207). -/
def emptyTextMsg : String :=
  "PDF contains no extractable text. It may be scanned/image-based."

/-- The fallback `reason` used by the background worker (main.py
lines 117-119). -/
def fallbackReason : String :=
  "Gemini rate limit reached. Showing extracted structure now; " ++
    "retry later for full semantic analysis."

/-- Function `_run_analysis_job(job_id, filename, file_bytes, file_hash)` (main.py
lines 75-131).  Returns the new state and the sequence of status values
written to the job record. -/
def run_analysis_job (env : Env) (job_id : String) (filename : String)
    (bytes : Bytes) (file_hash : String) (st0 : St) : St × List JobStatus :=
  let t1 := env.now_iso st0.tick
  let stA := {st0 with tick := st0.tick + 1}
  let r1 := set_job stA job_id
    (fun j => {j with status := .running, started_at := some t1, error := none})
  let st1 := r1.1
  match env.extract_text_by_pages bytes with
  | .error e =>
      let t := env.now_iso st1.tick
      let stB := {st1 with tick := st1.tick + 1}
      let r2 := set_job stB job_id
        (fun j => {j with status := .failed, completed_at := some t,
                          error := some e})
      (r2.1, r1.2 ++ r2.2)
  | .ok pages =>
      if pyStrip (join_pages pages) = "" then
        let t := env.now_iso st1.tick
        let stB := {st1 with tick := st1.tick + 1}
        let r2 := set_job stB job_id
          (fun j => {j with status := .failed, completed_at := some t,
                            error := some emptyTextMsg})
        (r2.1, r1.2 ++ r2.2)
      else
        match dictGet st1.cache file_hash with
        | some cached_payload =>
            let t := env.now_iso st1.tick
            let stB := {st1 with tick := st1.tick + 1}
            let r2 := set_job stB job_id
              (fun j => {j with status := .completed, completed_at := some t,
                                result := some {cached_payload with cached := true}})
            (r2.1, r1.2 ++ r2.2)
        | none =>
            match process_paper env st1.calls (env.detect_sections pages) with
            | .ok (analysis, n') =>
                let payload : Payload :=
                  ⟨filename, pages.length, count_tokens (join_pages pages),
                    analysis, false⟩
                let stB := {st1 with calls := n',
                                     cache := dictSet st1.cache file_hash payload}
                let t := env.now_iso stB.tick
                let stC := {stB with tick := stB.tick + 1}
                let r2 := set_job stC job_id
                  (fun j => {j with status := .completed, completed_at := some t,
                                    result := some payload})
                (r2.1, r1.2 ++ r2.2)
            | .error (m, n') =>
                let fallback : Payload :=
                  ⟨filename, pages.length, count_tokens (join_pages pages),
                    build_fallback_analysis (env.detect_sections pages)
                      fallbackReason,
                    false⟩
                let stB := {st1 with calls := n'}
                let t := env.now_iso stB.tick
                let stC := {stB with tick := stB.tick + 1}
                let r2 := set_job stC job_id
                  (fun j => {j with status := .partial_, completed_at := some t,
                                    error := some m, result := some fallback})
                (r2.1, r1.2 ++ r2.2)

/-- Outcome of the synchronous `POST /analyze` endpoint: a payload, or an
`HTTPException(status_code, detail)`. -/
inductive AnalyzeResult where
  | ok (p : Payload)
  | httpError (status : Nat) (detail : String)
deriving Repr, DecidableEq

/-- The 429 detail built on `RateLimitExceeded` in `analyze_pdf`
(main.py lines 221-227). -/
def rateLimitDetail (msg : String) : String :=
  "Gemini rate limit reached. Please retry in a few minutes or use " ++
    "POST /jobs/analyze for async processing. " ++ "Details: " ++ msg

/-- Endpoint handler `analyze_pdf` — the synchronous `POST /analyze` endpoint (main.py
lines 185-245). -/
def analyze_pdf (env : Env) (filename : String) (bytes : Bytes) (st : St) :
    AnalyzeResult × St :=
  if !(pyEndsWith (pyLower filename) ".pdf") then
    (.httpError 400 "Only PDF files are accepted.", st)
  else
    match env.extract_text_by_pages bytes with
    | .error e => (.httpError 422 ("Failed to parse PDF: " ++ e), st)
    | .ok pages =>
        if pyStrip (join_pages pages) = "" then
          (.httpError 422 emptyTextMsg, st)
        else
          match dictGet st.cache (env.sha256_hexdigest bytes) with
          | some cached_payload => (.ok {cached_payload with cached := true}, st)
          | none =>
              match process_paper env st.calls (env.detect_sections pages) with
              | .error (m, n') =>
                  (.httpError 429 (rateLimitDetail m), {st with calls := n'})
              | .ok (analysis, n') =>
                  let payload : Payload :=
                    ⟨filename, pages.length, count_tokens (join_pages pages),
                      analysis, false⟩
                  (.ok payload,
                    {st with calls := n',
                             cache := dictSet st.cache
                               (env.sha256_hexdigest bytes) payload})

/-- Outcome of `POST /jobs/analyze`: the job-id acknowledgment, or the 400
for a non-`.pdf` filename. -/
inductive CreateResult where
  | ok (job_id : String)
  | badRequest
deriving Repr, DecidableEq

/-- Endpoint handler `create_analysis_job` — the `POST /jobs/analyze` endpoint (main.py
lines 248-280) up to the point where the background task is scheduled.
`job_id` (the `uuid.uuid4()` value) is passed in as external randomness. -/
def create_analysis_job (env : Env) (filename : String) (bytes : Bytes)
    (job_id : String) (st : St) : CreateResult × St :=
  if !(pyEndsWith (pyLower filename) ".pdf") then
    (.badRequest, st)
  else
    let t := env.now_iso st.tick
    let job : Job :=
      { job_id := job_id, filename := filename, status := .queued,
        created_at := t, started_at := none, completed_at := none,
        error := none, result := none }
    (.ok job_id,
      {st with tick := st.tick + 1, jobs := dictSet st.jobs job_id job})

/-- Composition: `POST /jobs/analyze` followed by the execution of its background task
(`background_tasks.add_task(_run_analysis_job, ...)`, main.py line 273, with
`file_hash = hashlib.sha256(file_bytes).hexdigest()`, line 258). -/
def create_and_run (env : Env) (filename : String) (bytes : Bytes)
    (job_id : String) (st : St) : St × List JobStatus :=
  match create_analysis_job env filename bytes job_id st with
  | (.ok _, st1) =>
      run_analysis_job env job_id filename bytes (env.sha256_hexdigest bytes) st1
  | (.badRequest, st1) => (st1, [])

/-- The status sequence observed on a job's record: `queued` at creation,
then every status written by the background worker. -/
def jobStatusTrace (env : Env) (filename : String) (bytes : Bytes)
    (job_id : String) (st : St) : List JobStatus :=
  match create_analysis_job env filename bytes job_id st with
  | (.ok _, st1) =>
      .queued ::
        (run_analysis_job env job_id filename bytes (env.sha256_hexdigest bytes)
          st1).2
  | (.badRequest, _) => []

/-- Outcome of `GET /jobs/{job_id}/result`.  `notFound` is the 404,
`stillProcessing` the 409, `failedErr` the 500 with the job's error (or
`"Job failed"` when the stored error is falsy), `ok` the returned
`job["result"]`. -/
inductive JobResultOutcome where
  | notFound
  | stillProcessing
  | failedErr (msg : String)
  | ok (result : Option Payload)
deriving Repr, DecidableEq

/-- Model of Python's `x or default` for an optional string (`""` and `None` are
falsy). -/
def pyOrStr (o : Option String) (default : String) : String :=
  match o with
  | some s => if s = "" then default else s
  | none => default

/-- Endpoint handler `get_job_result` — the `GET /jobs/{job_id}/result` endpoint (main.py
lines 302-316).  A pure read: it takes the state and returns an outcome
without modifying anything. -/
def get_job_result (st : St) (job_id : String) : JobResultOutcome :=
  match dictGet st.jobs job_id with
  | none => .notFound
  | some job =>
      if job.status = .queued ∨ job.status = .running then
        .stillProcessing
      else if job.status = .failed then
        .failedErr (pyOrStr job.error "Job failed")
      else
        .ok job.result

/-- Endpoint handler `get_job_status` — the `GET /jobs/{job_id}` endpoint (main.py
lines 283-299): a pure read returning the record (the endpoint projects its
fields into a status view and 404s on `none`). -/
def get_job_status (st : St) (job_id : String) : Option Job :=
  dictGet st.jobs job_id

/-- Per-attempt quota classification: whether one Gemini attempt raised an
exception that `_call_gemini` classifies as quota/rate-limit. -/
def attemptQuota : AttemptResult → Bool
  | .ok _ => false
  | .err m => isQuotaMsg m

/-- Hypothesis that every call to the Summarization Service raises a quota error: each
wrapped `_call_gemini` invocation ends in a raised `RateLimitExceeded`.  (By
the retry policy this is exactly what happens when every underlying API
attempt fails with a quota-classified error.) -/
def AlwaysQuota (env : Env) : Prop :=
  (∀ n, ∃ m, env.chunkSvc n = .quota m) ∧ (∀ n, ∃ m, env.globalSvc n = .quota m)

/-! ## Concrete fixtures for witnesses and counterexamples -/

/-- A fixed global analysis returned by the healthy service fixture. -/
def g0 : GlobalAnalysis := ⟨"T", "G", "P", "M", [], [], [], []⟩

/-- A healthy environment: one page reading "hello", one section, a service
that always succeeds. -/
def env0 : Env :=
  { extract_text_by_pages := fun _ => .ok [⟨1, "hello"⟩]
    detect_sections := fun _ => [⟨"Full Document", "hello", some 1⟩]
    sha256_hexdigest := fun _ => "h"
    now_iso := fun n => toString n
    chunkSvc := fun _ => .ok ⟨"s", [], []⟩
    globalSvc := fun _ => .ok g0 }

/-- The empty initial state (`JOBS = {}`, `ANALYSIS_CACHE = {}`). -/
def st0 : St := ⟨[], [], 0, 0⟩

/-- The analysis `env0` produces for the "hello" document. -/
def a0 : Analysis := ⟨g0, [⟨"Full Document", 1, "s", [], []⟩], ⟨1, 1, none⟩⟩

/-- The payload the first fresh `/analyze` of the "hello" document under
`env0` returns. -/
def p0 : Payload := ⟨"a.pdf", 1, 1, a0, false⟩

/-- The state after that first `/analyze`: the payload cached under "h",
two service invocations. -/
def st10 : St := ⟨[], [("h", p0)], 2, 0⟩

/-- An always-rate-limited environment detecting section "A". -/
def envQ1 : Env :=
  { env0 with
      detect_sections := fun _ => [⟨"A", "hello", some 1⟩]
      chunkSvc := fun _ => .quota "qmsg"
      globalSvc := fun _ => .quota "qmsg" }

/-- The same always-rate-limited environment, but detecting section "B"
instead of "A". -/
def envQ2 : Env :=
  { envQ1 with detect_sections := fun _ => [⟨"B", "hello", some 2⟩] }

/-- Two distinct payloads for the cache-overwrite counterexample. -/
def pA : Payload := ⟨"first.pdf", 1, 1, a0, false⟩

/-- Second distinct payload (different filename). -/
def pB : Payload := ⟨"second.pdf", 2, 2, a0, false⟩

/-- A queued job fixture. -/
def jobQueued : Job :=
  ⟨"j1", "a.pdf", .queued, "t0", none, none, none, none⟩

/-- A failed job fixture with a stored error message. -/
def jobFailed : Job :=
  ⟨"j2", "a.pdf", .failed, "t0", some "t1", some "t2", some "boom", none⟩

/-- A completed job fixture with a stored result. -/
def jobDone : Job :=
  ⟨"j3", "a.pdf", .completed, "t0", some "t1", some "t2", none, some p0⟩

/-- A registry state holding the three job fixtures. -/
def stJobs : St :=
  ⟨[("j1", jobQueued), ("j2", jobFailed), ("j3", jobDone)], [], 0, 0⟩

/-- Attempt oracle: every API attempt raises a quota-classified error. -/
def attQ : Nat → AttemptResult := fun _ => .err "quota"

/-- Attempt oracle: the first attempt raises a non-quota error. -/
def attE : Nat → AttemptResult := fun _ => .err "boom"

/-- Attempt oracle: quota on attempt 0, non-quota on attempt 1. -/
def attQE : Nat → AttemptResult :=
  fun k => if k = 0 then .err "quota" else .err "boom"

/-- Attempt oracle: quota on attempts 0 and 1, non-quota on attempt 2. -/
def attQQE : Nat → AttemptResult :=
  fun k => if k ≤ 1 then .err "quota" else .err "boom"

/-- The section whose content is a single 12001-character paragraph (12001
copies of `a`: no blank line, no whitespace), used to exhibit the chunker
budget violation. -/
def bigContent : String := String.mk (List.replicate 12001 'a')

/-- A section holding `bigContent`. -/
def bigSection : Section := ⟨"Body", bigContent, some 3⟩

/-! ## Helper lemmas -/

theorem dictGet_dictSet_self {α : Type} (m : List (String × α)) (k : String)
    (v : α) : dictGet (dictSet m k v) k = some v := by
  induction m with
  | nil => simp [dictSet, dictGet]
  | cons hd tl ih =>
      obtain ⟨k', v'⟩ := hd
      by_cases h : k' = k <;> simp [dictSet, dictGet, h, ih]

theorem dictGet_dictSet_ne {α : Type} (m : List (String × α)) (k k' : String)
    (v : α) (h : k' ≠ k) : dictGet (dictSet m k v) k' = dictGet m k' := by
  induction m with
  | nil => simp [dictSet, dictGet, Ne.symm h]
  | cons hd tl ih =>
      obtain ⟨ka, va⟩ := hd
      by_cases hk : ka = k
      · subst hk
        simp [dictSet, dictGet, Ne.symm h]
      · simp only [dictSet, if_neg hk]
        by_cases hk' : ka = k' <;> simp [dictGet, hk', ih]

theorem pySplitChars_no_newline (l : List Char) (h : '\n' ∉ l) :
    pySplitChars l = [l] := by
  induction l with
  | nil => rfl
  | cons c rest ih =>
      match rest with
      | [] => rfl
      | c2 :: rest' =>
          have hc : c ≠ '\n' := fun hh => h (hh ▸ List.mem_cons_self c _)
          have hrest : '\n' ∉ c2 :: rest' := fun hh => h (List.mem_cons_of_mem c hh)
          have hsplit := ih hrest
          simp only [pySplitChars]
          rw [if_neg (fun hh => hc hh.1), hsplit]

theorem dropWhile_no_space (l : List Char)
    (h : ∀ c ∈ l, pyIsSpace c = false) : l.dropWhile pyIsSpace = l := by
  cases l with
  | nil => rfl
  | cons c rest => simp [List.dropWhile_cons, h c (List.mem_cons_self c rest)]

theorem pyStripChars_no_space (l : List Char)
    (h : ∀ c ∈ l, pyIsSpace c = false) : pyStripChars l = l := by
  have h1 : l.dropWhile pyIsSpace = l := dropWhile_no_space l h
  have h2 : ∀ c ∈ l.reverse, pyIsSpace c = false := by
    intro c hc
    exact h c (List.mem_reverse.mp hc)
  simp [pyStripChars, h1, dropWhile_no_space l.reverse h2]

theorem bigContent_length : bigContent.length = 12001 := by
  rw [show bigContent.length = (List.replicate 12001 'a').length from rfl,
    List.length_replicate]

theorem pyStrip_bigContent : pyStrip bigContent = bigContent := by
  have h : ∀ c ∈ List.replicate 12001 'a', pyIsSpace c = false := by
    intro c hc
    rw [List.eq_of_mem_replicate hc]
    decide
  show String.mk (pyStripChars (List.replicate 12001 'a')) = bigContent
  rw [pyStripChars_no_space _ h]
  rfl

theorem bigContent_ne_empty : bigContent ≠ "" := by
  intro h
  have h2 := congrArg String.length h
  rw [bigContent_length, show String.length "" = 0 from rfl] at h2
  exact absurd h2 (by decide)

theorem pySplitNN_bigContent : pySplitNN bigContent = [bigContent] := by
  have h : '\n' ∉ List.replicate 12001 'a' := by
    intro hc
    have h2 := List.eq_of_mem_replicate hc
    exact absurd h2 (by decide)
  show (pySplitChars (List.replicate 12001 'a')).map String.mk = [bigContent]
  rw [pySplitChars_no_newline _ h]
  rfl

/-! ## Claim theorems -/

/-- Claim C9 (code-bug evidence).  The claim — every chunk produced by the
chunker has content of length at most `MAX_CHUNK_CHARS = 12000` — is
violated by the code on a section consisting of a single 12001-character
paragraph: `content.split("\n\n")` yields that one oversized paragraph,
the loop makes it the `current_chunk` without ever cutting it, and the final
flush emits it as a single chunk of 12001 > 12000 characters (keeping the
original section name, since `chunk_index == 1`).  This contradicts the
function's own docstring, "Chunk sections so each chunk stays within size
limits." -/
theorem C9_chunker_budget_violation :
    chunk_by_sections [bigSection] MAX_CHUNK_CHARS =
      [{ name := "Body", content := bigContent, page_start := 3 }] ∧
    bigContent.length = 12001 ∧
    MAX_CHUNK_CHARS < bigContent.length := by
  have hone : chunk_by_sections [bigSection] MAX_CHUNK_CHARS =
      chunkSection MAX_CHUNK_CHARS bigSection := by
    simp [chunk_by_sections]
  have hlen : ¬ bigSection.content.length ≤ MAX_CHUNK_CHARS := by
    rw [show bigSection.content = bigContent from rfl, bigContent_length]
    decide
  have hloop : chunkLoop "Body" 3 MAX_CHUNK_CHARS [bigContent] "" 1 =
      ([], bigContent, 1) := by
    have hgt : String.length "" + bigContent.length + 2 > MAX_CHUNK_CHARS := by
      rw [bigContent_length]; decide
    have hse : ¬ (pyStrip "" ≠ "") := by decide
    simp only [chunkLoop]
    rw [if_pos hgt, if_neg hse]
  have hmain : chunkSection MAX_CHUNK_CHARS bigSection =
      [{ name := "Body", content := bigContent, page_start := 3 }] := by
    simp only [chunkSection]
    rw [if_neg hlen]
    rw [show pySplitNN bigSection.content = [bigContent] from pySplitNN_bigContent]
    rw [show bigSection.name = "Body" from rfl,
      show bigSection.page_start.getD 0 = 3 from rfl, hloop]
    have hne : pyStrip bigContent ≠ "" := by
      rw [pyStrip_bigContent]; exact bigContent_ne_empty
    simp only []
    rw [if_pos hne]
    simp [pyStrip_bigContent]
  refine ⟨hone.trans hmain, bigContent_length, ?_⟩
  rw [bigContent_length]
  decide

theorem attemptQuota_eq (r : AttemptResult) (h : attemptQuota r = true) :
    ∃ m, r = .err m ∧ isQuotaMsg m = true := by
  cases r with
  | ok r => simp [attemptQuota] at h
  | err m => exact ⟨m, rfl, by simpa [attemptQuota] using h⟩

/-- Claim C6: each invocation of the retrying wrapper `_call_gemini` makes at
most 3 attempts; after a quota-classified failure on an attempt before the
last it sleeps `base_delay * 2 ^ attempt` seconds (40, then 80) and retries;
after quota failures on all three attempts it raises `RateLimitExceeded`
reporting the attempt count; a non-quota failure on any attempt is re-raised
immediately, with no further attempts and no sleep after it. -/
theorem C6_retry_policy (a : Nat → AttemptResult) (m0 m1 m2 : String) :
    (call_gemini a).attemptsUsed ≤ 3
    ∧ (attemptQuota (a 0) = true → attemptQuota (a 1) = true →
        attemptQuota (a 2) = true →
        call_gemini a = ⟨.quota rateLimitExhaustMsg, 3,
          [base_delay * 2 ^ 0, base_delay * 2 ^ 1]⟩)
    ∧ (a 0 = .err m0 → isQuotaMsg m0 = false →
        call_gemini a = ⟨.err m0, 1, []⟩)
    ∧ (attemptQuota (a 0) = true → a 1 = .err m1 → isQuotaMsg m1 = false →
        call_gemini a = ⟨.err m1, 2, [base_delay * 2 ^ 0]⟩)
    ∧ (attemptQuota (a 0) = true → attemptQuota (a 1) = true →
        a 2 = .err m2 → isQuotaMsg m2 = false →
        call_gemini a = ⟨.err m2, 3, [base_delay * 2 ^ 0, base_delay * 2 ^ 1]⟩) := by
  refine ⟨?_, ?_, ?_, ?_, ?_⟩
  · rcases h0 : a 0 with r0 | e0
    · simp [call_gemini, callGeminiLoop, h0]
    · by_cases q0 : isQuotaMsg e0 = true
      · rcases h1 : a 1 with r1 | e1
        · simp [call_gemini, callGeminiLoop, h0, h1, q0, max_retries]
        · by_cases q1 : isQuotaMsg e1 = true
          · rcases h2 : a 2 with r2 | e2
            · simp [call_gemini, callGeminiLoop, h0, h1, h2, q0, q1, max_retries]
            · by_cases q2 : isQuotaMsg e2 = true <;>
                simp [call_gemini, callGeminiLoop, h0, h1, h2, q0, q1, q2,
                  max_retries]
          · simp [call_gemini, callGeminiLoop, h0, h1, q0, q1, max_retries]
      · simp [call_gemini, callGeminiLoop, h0, q0, max_retries]
  · intro hq0 hq1 hq2
    obtain ⟨e0, h0, q0⟩ := attemptQuota_eq _ hq0
    obtain ⟨e1, h1, q1⟩ := attemptQuota_eq _ hq1
    obtain ⟨e2, h2, q2⟩ := attemptQuota_eq _ hq2
    simp [call_gemini, callGeminiLoop, h0, h1, h2, q0, q1, q2, max_retries,
      base_delay]
  · intro h0 q0
    simp [call_gemini, callGeminiLoop, h0, q0, max_retries]
  · intro hq0 h1 q1
    obtain ⟨e0, h0, q0⟩ := attemptQuota_eq _ hq0
    simp [call_gemini, callGeminiLoop, h0, h1, q0, q1, max_retries, base_delay]
  · intro hq0 hq1 h2 q2
    obtain ⟨e0, h0, q0⟩ := attemptQuota_eq _ hq0
    obtain ⟨e1, h1, q1⟩ := attemptQuota_eq _ hq1
    simp [call_gemini, callGeminiLoop, h0, h1, h2, q0, q1, q2, max_retries,
      base_delay]

/-- Witness for C6: the retry policy evaluated on four concrete attempt
oracles (always-quota; non-quota at once; quota then non-quota; two quotas
then non-quota). -/
theorem C6_retry_policy_witness :
    (call_gemini attQ).attemptsUsed ≤ 3
    ∧ call_gemini attQ = ⟨.quota rateLimitExhaustMsg, 3,
        [base_delay * 2 ^ 0, base_delay * 2 ^ 1]⟩
    ∧ call_gemini attE = ⟨.err "boom", 1, []⟩
    ∧ call_gemini attQE = ⟨.err "boom", 2, [base_delay * 2 ^ 0]⟩
    ∧ call_gemini attQQE = ⟨.err "boom", 3,
        [base_delay * 2 ^ 0, base_delay * 2 ^ 1]⟩ :=
  ⟨(C6_retry_policy attQ "" "" "").1,
   (C6_retry_policy attQ "" "" "").2.1 (by decide) (by decide) (by decide),
   (C6_retry_policy attE "boom" "" "").2.2.1 rfl (by decide),
   (C6_retry_policy attQE "" "boom" "").2.2.2.1 (by decide) rfl (by decide),
   (C6_retry_policy attQQE "" "" "boom").2.2.2.2 (by decide) (by decide) rfl
     (by decide)⟩

/-- Claim C2: `get_job_result` returns `notFound` for unknown ids,
`stillProcessing` (a distinct outcome) for queued/running jobs, the stored
error message for failed jobs (when that message is a non-empty string, the
only case arising from the worker, which stores `str(e)`), and the stored
result for completed and partial jobs. -/
theorem C2_job_result_contract (st : St) (job_id : String) (job : Job)
    (msg : String) :
    (dictGet st.jobs job_id = none → get_job_result st job_id = .notFound)
    ∧ (dictGet st.jobs job_id = some job →
        job.status = .queued ∨ job.status = .running →
        get_job_result st job_id = .stillProcessing)
    ∧ (dictGet st.jobs job_id = some job → job.status = .failed →
        job.error = some msg → msg ≠ "" →
        get_job_result st job_id = .failedErr msg)
    ∧ (dictGet st.jobs job_id = some job →
        job.status = .completed ∨ job.status = .partial_ →
        get_job_result st job_id = .ok job.result)
    ∧ JobResultOutcome.stillProcessing ≠ JobResultOutcome.notFound := by
  refine ⟨?_, ?_, ?_, ?_, by simp⟩
  · intro h
    simp [get_job_result, h]
  · intro h hs
    rcases hs with hs | hs <;> simp [get_job_result, h, hs]
  · intro h hs herr hne
    simp [get_job_result, h, hs, pyOrStr, herr, hne]
  · intro h hs
    rcases hs with hs | hs <;> simp [get_job_result, h, hs]

/-- Witness for C2: the four outcomes on concrete registries (an empty one
and one holding a queued, a failed, and a completed job). -/
theorem C2_job_result_contract_witness :
    get_job_result st0 "nope" = .notFound
    ∧ get_job_result stJobs "j1" = .stillProcessing
    ∧ get_job_result stJobs "j2" = .failedErr "boom"
    ∧ get_job_result stJobs "j3" = .ok (some p0) :=
  ⟨(C2_job_result_contract st0 "nope" jobQueued "x").1 (by decide),
   (C2_job_result_contract stJobs "j1" jobQueued "x").2.1 (by decide)
     (Or.inl rfl),
   (C2_job_result_contract stJobs "j2" jobFailed "boom").2.2.1 (by decide)
     rfl rfl (by decide),
   (C2_job_result_contract stJobs "j3" jobDone "x").2.2.2.1 (by decide)
     (Or.inl rfl)⟩

/-- Claim C8 (counterexample).  The cache write of the code
(`ANALYSIS_CACHE[file_hash] = payload`, main.py lines 243 and 109, modelled
by `dictSet`) is a plain dict assignment: invoked on a fingerprint that
already has an entry it *overwrites* the stored entry, so the claimed
"put on an existing key is a no-op / first write wins" semantics is false of
the put operation (a no-op put would leave `some pA` stored, not `some pB`). -/
theorem C8_put_overwrites_counterexample :
    dictGet (dictSet [("fp", pA)] "fp" pB) "fp" = some pB ∧ pA ≠ pB := by
  decide

/-- Claim C8 (amended): the cache write is an overwriting dict assignment, but
both write sites are guarded by a cache lookup earlier in the same run, so
in sequential execution no run ever writes a fingerprint that already has an
entry — an existing cache entry survives, unchanged, any synchronous analyze
call and any background job run (under the concurrent race of spec §5 the
last writer would win instead). -/
theorem C8_first_write_wins_sequentially (env : Env) (f : String) (b : Bytes)
    (st : St) (job_id fh k : String) (v : Payload) :
    (dictGet st.cache k = some v →
      dictGet (analyze_pdf env f b st).2.cache k = some v)
    ∧ (dictGet st.cache k = some v →
      dictGet (run_analysis_job env job_id f b fh st).1.cache k = some v) := by
  have hcache : ∀ jid g s, (set_job s jid g).1.cache = s.cache := by
    intro jid g s
    unfold set_job
    split <;> rfl
  constructor
  · intro h
    simp only [analyze_pdf]
    split
    · exact h
    · split
      · exact h
      · split
        · exact h
        · split
          · exact h
          · split
            · exact h
            · have hmiss : dictGet st.cache (env.sha256_hexdigest b) = none :=
                ‹dictGet st.cache (env.sha256_hexdigest b) = none›
              have hk : k ≠ env.sha256_hexdigest b := by
                intro he
                rw [he, hmiss] at h
                exact Option.noConfusion h
              exact (dictGet_dictSet_ne st.cache _ k _ hk).trans h
  · intro h
    simp only [run_analysis_job, hcache]
    split
    · simp [hcache, h]
    · split
      · simp [hcache, h]
      · split
        · simp [hcache, h]
        · split
          · have hmiss : dictGet st.cache fh = none := ‹dictGet st.cache fh = none›
            have hk : k ≠ fh := by
              intro he
              rw [he, hmiss] at h
              exact Option.noConfusion h
            simp [hcache, dictGet_dictSet_ne _ _ k _ hk, h]
          · simp [hcache, h]

/-- Witness for C8 (amended): a concrete run over a state whose cache already
holds fingerprint "k"; the synchronous analyze (which writes fingerprint "h")
and a background job run both leave the "k" entry intact. -/
theorem C8_first_write_wins_sequentially_witness :
    dictGet (analyze_pdf env0 "a.pdf" [0] ⟨[], [("k", pA)], 0, 0⟩).2.cache "k" =
      some pA
    ∧ dictGet (run_analysis_job env0 "j1" "a.pdf" [0] "h"
        ⟨[], [("k", pA)], 0, 0⟩).1.cache "k" = some pA :=
  ⟨(C8_first_write_wins_sequentially env0 "a.pdf" [0] ⟨[], [("k", pA)], 0, 0⟩
      "j1" "h" "k" pA).1 (by decide),
   (C8_first_write_wins_sequentially env0 "a.pdf" [0] ⟨[], [("k", pA)], 0, 0⟩
      "j1" "h" "k" pA).2 (by decide)⟩

/-- Claim C3 (counterexample).  The claim says that on `QuotaExceeded` the
*synchronous* analyze operation builds a FallbackAnalysis from the detected
sections and returns it embedded in the rate-limit error.  It does not: the
synchronous path raises a bare `HTTPException(429)` whose detail is a fixed
string plus the quota message (main.py lines 219-227); only the background
worker builds the fallback.  Concretely: two environments whose detected
sections differ (section "A" vs section "B", so their fallback analyses
differ) produce the *identical* 429 response — hence that response cannot
embed (or determine) the fallback result of either run. -/
theorem C3_sync_no_fallback_counterexample :
    analyze_pdf envQ1 "a.pdf" [0] st0 = analyze_pdf envQ2 "a.pdf" [0] st0
    ∧ envQ1.detect_sections [⟨1, "hello"⟩] ≠ envQ2.detect_sections [⟨1, "hello"⟩]
    ∧ build_fallback_analysis (envQ1.detect_sections [⟨1, "hello"⟩])
        fallbackReason ≠
      build_fallback_analysis (envQ2.detect_sections [⟨1, "hello"⟩])
        fallbackReason
    ∧ (analyze_pdf envQ1 "a.pdf" [0] st0).1 =
        .httpError 429 (rateLimitDetail "qmsg") := by
  decide

/-- Claim C3 (amended): whenever the pipeline raises `QuotaExceeded` during
per-chunk summarization or global synthesis, the synchronous analyze
operation fails with a client-facing 429 rate-limit error whose detail
embeds the quota error's message and points at the async endpoint; it does
not build or return a FallbackAnalysis (only the background job path builds
one), and it leaves jobs and cache untouched. -/
theorem C3_sync_quota_returns_429 (env : Env) (f : String) (b : Bytes)
    (st : St) (pages : List Page) (m : String) (n' : Nat)
    (hpdf : pyEndsWith (pyLower f) ".pdf" = true)
    (hparse : env.extract_text_by_pages b = .ok pages)
    (htext : ¬ pyStrip (join_pages pages) = "")
    (hmiss : dictGet st.cache (env.sha256_hexdigest b) = none)
    (hproc : process_paper env st.calls (env.detect_sections pages) =
      .error (m, n')) :
    analyze_pdf env f b st =
      (.httpError 429 (rateLimitDetail m), {st with calls := n'}) := by
  simp [analyze_pdf, hpdf, hparse, htext, hmiss, hproc]

/-- Witness for C3 (amended): the always-rate-limited environment makes the
synchronous analyze return the 429 with the quota message, leaving the state
unchanged apart from the one service invocation counted. -/
theorem C3_sync_quota_returns_429_witness :
    analyze_pdf envQ1 "a.pdf" [0] st0 =
      (.httpError 429 (rateLimitDetail "qmsg"), {st0 with calls := 1}) :=
  C3_sync_quota_returns_429 envQ1 "a.pdf" [0] st0 [⟨1, "hello"⟩] "qmsg" 1
    (by decide) rfl (by decide) rfl rfl

theorem set_job_cache (s : St) (jid : String) (g : Job → Job) :
    (set_job s jid g).1.cache = s.cache := by
  unfold set_job
  split <;> rfl

theorem set_job_jobs_other (s : St) (jid : String) (g : Job → Job)
    (id' : String) (h : id' ≠ jid) :
    dictGet (set_job s jid g).1.jobs id' = dictGet s.jobs id' := by
  unfold set_job
  split
  · rfl
  · exact dictGet_dictSet_ne s.jobs jid id' _ h

theorem set_job_status_mem (s : St) (jid : String) (g : Job → Job)
    (c : JobStatus) (hg : ∀ j, (g j).status = c) :
    ∀ x ∈ (set_job s jid g).2, x = c := by
  unfold set_job
  split
  · intro x hx
    exact absurd hx (List.not_mem_nil x)
  · intro x hx
    rw [List.mem_singleton] at hx
    rw [hx, hg]

theorem process_paper_always_quota (env : Env) (hq : AlwaysQuota env) (n : Nat)
    (sections : List Section) :
    ∃ m n', process_paper env n sections = .error (m, n') := by
  cases hchunks : chunk_by_sections sections MAX_CHUNK_CHARS with
  | nil =>
      obtain ⟨m, hm⟩ := hq.2 n
      exact ⟨m, n + 1, by simp [process_paper, hchunks, summarize_chunks, hm]⟩
  | cons c cs =>
      obtain ⟨m, hm⟩ := hq.1 n
      exact ⟨m, n + 1, by simp [process_paper, hchunks, summarize_chunks, hm]⟩

/-- Claim C1: the status sequence a job's record takes on is exactly `queued`,
`running`, then one terminal status among `completed`/`partial`/`failed`;
and no operation ever changes a job's status afterwards — the synchronous
analyze endpoint never touches the registry, a worker run for one job id
leaves every other record untouched, and the status/result endpoints are
pure reads by construction (`get_job_status`, `get_job_result` return
outcomes without producing a state). -/
theorem C1_job_state_machine (env : Env) (f : String) (b : Bytes)
    (job_id : String) (st : St)
    (hpdf : pyEndsWith (pyLower f) ".pdf" = true) :
    (∃ t, (t = JobStatus.completed ∨ t = JobStatus.partial_ ∨
        t = JobStatus.failed) ∧
      jobStatusTrace env f b job_id st = [.queued, .running, t])
    ∧ (∀ f' b' st', (analyze_pdf env f' b' st').2.jobs = st'.jobs)
    ∧ (∀ (st' : St) f' b' fh id', id' ≠ job_id →
        dictGet (run_analysis_job env job_id f' b' fh st').1.jobs id' =
          dictGet st'.jobs id') := by
  refine ⟨?_, ?_, ?_⟩
  · simp only [jobStatusTrace, create_analysis_job, hpdf, Bool.not_true,
      Bool.false_eq_true, if_false]
    simp only [run_analysis_job, set_job, dictGet_dictSet_self]
    rcases hE : env.extract_text_by_pages b with e | pages
    · exact ⟨.failed, by simp, by simp [hE, dictGet_dictSet_self]⟩
    · by_cases ht : pyStrip (join_pages pages) = ""
      · exact ⟨.failed, by simp, by simp [hE, ht, dictGet_dictSet_self]⟩
      · rcases hc : dictGet st.cache (env.sha256_hexdigest b) with _ | q
        · rcases hP : process_paper env st.calls (env.detect_sections pages)
            with ⟨m, n'⟩ | ⟨a, n'⟩
          · exact ⟨.partial_, by simp,
              by simp [hE, ht, hc, hP, dictGet_dictSet_self]⟩
          · exact ⟨.completed, by simp,
              by simp [hE, ht, hc, hP, dictGet_dictSet_self]⟩
        · exact ⟨.completed, by simp,
            by simp [hE, ht, hc, dictGet_dictSet_self]⟩
  · intro f' b' st'
    unfold analyze_pdf
    repeat' split
    all_goals rfl
  · intro st' f' b' fh id' hne
    simp only [run_analysis_job, set_job_cache]
    repeat' split
    all_goals simp [set_job_jobs_other, hne]

/-- Witness for C1: a concrete job under the healthy environment runs
`queued → running → completed`; the synchronous endpoint leaves a concrete
registry alone; the worker leaves an unrelated job id alone. -/
theorem C1_job_state_machine_witness :
    (∃ t, (t = JobStatus.completed ∨ t = JobStatus.partial_ ∨
        t = JobStatus.failed) ∧
      jobStatusTrace env0 "a.pdf" [0] "j1" st0 = [.queued, .running, t])
    ∧ (∀ f' b' st', (analyze_pdf env0 f' b' st').2.jobs = st'.jobs)
    ∧ (∀ (st' : St) f' b' fh id', id' ≠ "j1" →
        dictGet (run_analysis_job env0 "j1" f' b' fh st').1.jobs id' =
          dictGet st'.jobs id') :=
  C1_job_state_machine env0 "a.pdf" [0] "j1" st0 (by decide)

/-- Claim C4: when every summarization-service call raises a quota error, a
background job over an upload that parses, has extractable text, misses the
cache and has at least one detected section ends in status `partial`, with a
stored error and a result payload whose analysis is exactly
`_build_fallback_analysis` of the detected sections: mode
`"fallback_quota_limited"` and one fallback entry per detected section, in
order, carrying that section's name and page start with empty key points and
key terms. -/
theorem C4_always_quota_gives_partial_fallback (env : Env) (f : String)
    (b : Bytes) (job_id : String) (st : St) (pages : List Page)
    (hpdf : pyEndsWith (pyLower f) ".pdf" = true)
    (hparse : env.extract_text_by_pages b = .ok pages)
    (htext : ¬ pyStrip (join_pages pages) = "")
    (hmiss : dictGet st.cache (env.sha256_hexdigest b) = none)
    (hq : AlwaysQuota env)
    (_hsec : env.detect_sections pages ≠ []) :
    ∃ job m,
      dictGet (create_and_run env f b job_id st).1.jobs job_id = some job
      ∧ job.status = .partial_
      ∧ job.error = some m
      ∧ ∃ p, job.result = some p
        ∧ p.analysis =
            build_fallback_analysis (env.detect_sections pages) fallbackReason
        ∧ p.analysis.stats.mode = some "fallback_quota_limited"
        ∧ p.analysis.sections = (env.detect_sections pages).map (fun s =>
            { section_name := s.name, page_start := s.page_start.getD 0,
              summary :=
                "Detailed LLM summary is pending due to temporary API quota limits.",
              key_points := [], key_terms := [] }) := by
  obtain ⟨m, n', hproc⟩ :=
    process_paper_always_quota env hq st.calls (env.detect_sections pages)
  simp only [create_and_run, create_analysis_job, hpdf, Bool.not_true,
    Bool.false_eq_true, if_false]
  simp only [run_analysis_job, set_job, set_job_cache, dictGet_dictSet_self,
    hparse, htext, hmiss, hproc, if_neg]
  refine ⟨_, m, dictGet_dictSet_self _ _ _, rfl, rfl, _, rfl, rfl, ?_, ?_⟩
  · simp [build_fallback_analysis]
  · simp [build_fallback_analysis]

/-- Witness for C4: under the always-rate-limited environment, the concrete
job ends `partial` with the one-entry fallback payload for section "A". -/
theorem C4_always_quota_gives_partial_fallback_witness :
    ∃ job m,
      dictGet (create_and_run envQ1 "a.pdf" [0] "j1" st0).1.jobs "j1" = some job
      ∧ job.status = .partial_
      ∧ job.error = some m
      ∧ ∃ p, job.result = some p
        ∧ p.analysis =
            build_fallback_analysis (envQ1.detect_sections [⟨1, "hello"⟩])
              fallbackReason
        ∧ p.analysis.stats.mode = some "fallback_quota_limited"
        ∧ p.analysis.sections =
            (envQ1.detect_sections [⟨1, "hello"⟩]).map (fun s =>
              { section_name := s.name, page_start := s.page_start.getD 0,
                summary :=
                  "Detailed LLM summary is pending due to temporary API quota limits.",
                key_points := [], key_terms := [] }) :=
  C4_always_quota_gives_partial_fallback envQ1 "a.pdf" [0] "j1" st0
    [⟨1, "hello"⟩] (by decide) rfl (by decide) rfl
    ⟨fun _ => ⟨"qmsg", rfl⟩, fun _ => ⟨"qmsg", rfl⟩⟩ (by decide)

theorem analyze_cache_cases (env : Env) (f : String) (b : Bytes) (st : St) :
    (analyze_pdf env f b st).2.cache = st.cache ∨
    ∃ p, (analyze_pdf env f b st).1 = .ok p ∧ p.cached = false := by
  simp only [analyze_pdf]
  split
  · exact Or.inl rfl
  · split
    · exact Or.inl rfl
    · split
      · exact Or.inl rfl
      · split
        · exact Or.inl rfl
        · split
          · exact Or.inl rfl
          · exact Or.inr ⟨_, rfl, rfl⟩

theorem run_job_cache_cases (env : Env) (job_id f : String) (b : Bytes)
    (fh : String) (st : St) :
    (run_analysis_job env job_id f b fh st).1.cache = st.cache ∨
    ∀ x ∈ (run_analysis_job env job_id f b fh st).2,
      x = JobStatus.running ∨ x = JobStatus.completed := by
  have hrun : ∀ (s : St) t,
      ∀ x ∈ (set_job s job_id (fun j =>
        {j with status := JobStatus.running, started_at := some t,
                error := none})).2, x = JobStatus.running :=
    fun s t => set_job_status_mem s job_id _ JobStatus.running (fun _ => rfl)
  simp only [run_analysis_job, set_job_cache]
  split
  · exact Or.inl (by simp [set_job_cache])
  · split
    · exact Or.inl (by simp [set_job_cache])
    · split
      · exact Or.inl (by simp [set_job_cache])
      · split
        · refine Or.inr ?_
          intro x hx
          rw [List.mem_append] at hx
          rcases hx with hx | hx
          · exact Or.inl (hrun _ _ x hx)
          · exact Or.inr (set_job_status_mem _ job_id _ JobStatus.completed
              (fun _ => rfl) x hx)
        · exact Or.inl (by simp [set_job_cache])

/-- Claim C7: runs that end in a quota fallback or in any other failure leave
the `ANALYSIS_CACHE` unchanged — a synchronous analyze call that returns any
`HTTPException` (400/422/429) does not change the cache, and a background
job run that writes status `partial` or `failed` does not change the cache;
a cache entry is written only when `process_paper` returns a synthesized
result (the job then completing). -/
theorem C7_failures_leave_cache_unchanged (env : Env) (f : String) (b : Bytes)
    (st : St) (job_id fh : String) :
    (∀ status detail, (analyze_pdf env f b st).1 = .httpError status detail →
      (analyze_pdf env f b st).2.cache = st.cache)
    ∧ (JobStatus.partial_ ∈ (run_analysis_job env job_id f b fh st).2 ∨
        JobStatus.failed ∈ (run_analysis_job env job_id f b fh st).2 →
      (run_analysis_job env job_id f b fh st).1.cache = st.cache) := by
  constructor
  · intro status detail h
    rcases analyze_cache_cases env f b st with hc | ⟨p, hp, _⟩
    · exact hc
    · rw [hp] at h
      exact AnalyzeResult.noConfusion h
  · intro hmem
    rcases run_job_cache_cases env job_id f b fh st with hc | hall
    · exact hc
    · rcases hmem with hm | hm
      · rcases hall _ hm with h | h <;> exact JobStatus.noConfusion h
      · rcases hall _ hm with h | h <;> exact JobStatus.noConfusion h

/-- Witness for C7: the always-rate-limited environment yields a 429 on the
synchronous path and a `partial` job on the background path, both leaving
the (empty) cache empty. -/
theorem C7_failures_leave_cache_unchanged_witness :
    (analyze_pdf envQ1 "a.pdf" [0] st0).2.cache = st0.cache
    ∧ (run_analysis_job envQ1 "j1" "a.pdf" [0] "h" stJobs).1.cache =
        stJobs.cache :=
  ⟨(C7_failures_leave_cache_unchanged envQ1 "a.pdf" [0] st0 "j1" "h").1
      429 (rateLimitDetail "qmsg") (by decide),
   (C7_failures_leave_cache_unchanged envQ1 "a.pdf" [0] stJobs "j1" "h").2
      (Or.inl (by decide))⟩

theorem analyze_fresh_success (env : Env) (f : String) (b : Bytes) (st : St)
    (p : Payload) (st1 : St)
    (hmiss : dictGet st.cache (env.sha256_hexdigest b) = none)
    (heq : analyze_pdf env f b st = (.ok p, st1)) :
    pyEndsWith (pyLower f) ".pdf" = true
    ∧ ∃ pages n', env.extract_text_by_pages b = .ok pages
        ∧ ¬ pyStrip (join_pages pages) = ""
        ∧ p.filename = f ∧ p.cached = false
        ∧ st1 = ⟨st.jobs, dictSet st.cache (env.sha256_hexdigest b) p,
                 n', st.tick⟩ := by
  by_cases hp : (!(pyEndsWith (pyLower f) ".pdf")) = true
  · simp [analyze_pdf, hp] at heq
  · have hpdf : pyEndsWith (pyLower f) ".pdf" = true := by
      simpa using hp
    rcases hE : env.extract_text_by_pages b with e | pages
    · simp [analyze_pdf, hp, hE] at heq
    · by_cases ht : pyStrip (join_pages pages) = ""
      · simp [analyze_pdf, hp, hE, ht] at heq
      · rcases hP : process_paper env st.calls (env.detect_sections pages)
          with ⟨m, n'⟩ | ⟨a, n'⟩
        · simp [analyze_pdf, hp, hE, ht, hmiss, hP] at heq
        · simp only [analyze_pdf, hp, hE, ht, hmiss, hP, Bool.false_eq_true,
            if_false, if_neg, Prod.mk.injEq] at heq
          rcases heq with ⟨hres, hst⟩
          have hpay :
              p = ⟨f, pages.length, count_tokens (join_pages pages), a, false⟩ := by
            cases hres2 : p with
            | mk pf pp pt pa pc =>
                rw [hres2] at hres
                exact (AnalyzeResult.ok.injEq _ _).mp hres.symm ▸ rfl
          refine ⟨hpdf, pages, n', rfl, ht, ?_, ?_, ?_⟩
          · rw [hpay]
          · rw [hpay]
          · rw [← hst, hpay]

/-- Claim C5: submitting identical bytes twice (with the fingerprint initially
uncached), when the first call succeeds with payload `p`, makes the second
call return exactly `p` with the `cached` flag flipped from `false` to
`true`, returning the state unchanged — in particular `calls`, the
summarization-service invocation counter, does not move, i.e. the second
call performs no service invocations. -/
theorem C5_second_submit_idempotent (env : Env) (f : String) (b : Bytes)
    (st : St) (p : Payload) (st1 : St)
    (hmiss : dictGet st.cache (env.sha256_hexdigest b) = none)
    (heq : analyze_pdf env f b st = (.ok p, st1)) :
    analyze_pdf env f b st1 = (.ok {p with cached := true}, st1)
    ∧ p.cached = false := by
  obtain ⟨hpdf, pages, n', hE, ht, _, hcached, hst1⟩ :=
    analyze_fresh_success env f b st p st1 hmiss heq
  refine ⟨?_, hcached⟩
  have hhit : dictGet st1.cache (env.sha256_hexdigest b) = some p := by
    rw [hst1]
    exact dictGet_dictSet_self _ _ _
  simp [analyze_pdf, hpdf, hE, ht, hhit]

/-- Witness for C5: the "hello" document analyzed twice under `env0` — the
second call returns the first payload with `cached := true` and the state
(including the service-call counter, at 2) unchanged. -/
theorem C5_second_submit_idempotent_witness :
    analyze_pdf env0 "a.pdf" [0] st10 = (.ok {p0 with cached := true}, st10)
    ∧ p0.cached = false :=
  C5_second_submit_idempotent env0 "a.pdf" [0] st0 p0 st10 rfl (by decide)

/-- Claim C10: when the synchronous path or the background job finds a cache
entry for the uploaded bytes, the returned payload is the originally cached
one with only `cached` flipped to `true`; in particular its `filename` is
the one supplied at the first computation (`p.filename = f1`), even when the
current upload supplies a different filename `f2`. -/
theorem C10_cache_hit_keeps_original_filename (env : Env) (f1 f2 : String)
    (b : Bytes) (st : St) (p : Payload) (st1 : St) (job_id : String)
    (hmiss : dictGet st.cache (env.sha256_hexdigest b) = none)
    (heq : analyze_pdf env f1 b st = (.ok p, st1))
    (hpdf2 : pyEndsWith (pyLower f2) ".pdf" = true) :
    p.filename = f1
    ∧ (analyze_pdf env f2 b st1).1 = .ok {p with cached := true}
    ∧ ({p with cached := true}).filename = f1
    ∧ ∃ job,
        dictGet (create_and_run env f2 b job_id st1).1.jobs job_id = some job
        ∧ job.status = .completed
        ∧ job.result = some {p with cached := true} := by
  obtain ⟨_, pages, n', hE, ht, hfn, _, hst1⟩ :=
    analyze_fresh_success env f1 b st p st1 hmiss heq
  have hhit : dictGet st1.cache (env.sha256_hexdigest b) = some p := by
    rw [hst1]
    exact dictGet_dictSet_self _ _ _
  refine ⟨hfn, ?_, by simpa using hfn, ?_⟩
  · simp [analyze_pdf, hpdf2, hE, ht, hhit]
  · simp only [create_and_run, create_analysis_job, hpdf2, Bool.not_true,
      Bool.false_eq_true, if_false]
    simp only [run_analysis_job, set_job, set_job_cache, dictGet_dictSet_self,
      hE, ht, hhit, if_neg]
    exact ⟨_, dictGet_dictSet_self _ _ _, rfl, rfl⟩

/-- Witness for C10: first upload as "a.pdf", second as "b.pdf" with the same
bytes — both the synchronous path and a background job return the cached
payload whose filename is still "a.pdf". -/
theorem C10_cache_hit_keeps_original_filename_witness :
    p0.filename = "a.pdf"
    ∧ (analyze_pdf env0 "b.pdf" [0] st10).1 = .ok {p0 with cached := true}
    ∧ ({p0 with cached := true}).filename = "a.pdf"
    ∧ ∃ job,
        dictGet (create_and_run env0 "b.pdf" [0] "j9" st10).1.jobs "j9" =
          some job
        ∧ job.status = .completed
        ∧ job.result = some {p0 with cached := true} :=
  C10_cache_hit_keeps_original_filename env0 "a.pdf" "b.pdf" [0] st0 p0 st10
    "j9" rfl (by decide) (by decide)

end Stark
